import Mathlib

/- Verification development for the Books-to-Scrape scraper
   (`book_scraper.py`).  The Python code is shallowly embedded below:
   the parsed-HTML inputs of the extractor are modelled as explicit
   structures holding exactly the pieces of the page the code reads,
   machine floats are modelled as exact rationals at the decimal level
   the code's string parsing works with, and the network is modelled
   as an oracle mapping the (attempt index, URL) of each HTTP request
   to an optional parsed page. -/

namespace BookScraper

/-! ## String utilities modelling the Python primitives used by the code -/

/-- Model of `needle in haystack` on lists of characters: prefix test. -/
def isPrefixL : List Char → List Char → Bool
  | [], _ => true
  | _ :: _, [] => false
  | a :: p, b :: s => a == b && isPrefixL p s

/-- Model of Python's substring containment (`x in s`) on char lists. -/
def containsSub (p : List Char) : List Char → Bool
  | [] => p.isEmpty
  | c :: r => isPrefixL p (c :: r) || containsSub p r

/-- Model of Python's `needle in hay` substring test on strings. -/
def substrIn (needle hay : String) : Bool :=
  containsSub needle.toList hay.toList

/-- The whitespace characters Python's `str.strip()` removes (ASCII part;
    the scraped texts contain no exotic unicode whitespace). -/
def isPySpace (c : Char) : Bool :=
  c = ' ' || c = '\t' || c = '\n' || c = '\r' || c = '\x0b' || c = '\x0c'

/-- Model of Python's `str.strip()`: drop whitespace from both ends. -/
def pyStrip (s : String) : String :=
  String.mk (((s.toList.dropWhile isPySpace).reverse.dropWhile isPySpace).reverse)

/-- ASCII lowering of one character (`str.lower()` on the texts at hand). -/
def lowerChar (c : Char) : Char :=
  if 'A' ≤ c ∧ c ≤ 'Z' then Char.ofNat (c.toNat + 32) else c

/-- Model of Python's `str.lower()` (ASCII). -/
def pyLower (s : String) : String :=
  String.mk (s.toList.map lowerChar)

/-- Model of `price_text.replace('£', '')`: removes every `£` character
    (exact for a one-character pattern replaced by the empty string). -/
def stripPound (s : String) : String :=
  ⟨s.toList.filter (fun c => c ≠ '£')⟩

/-- Numeric value of a digit string (most significant digit first). -/
def digitsVal (l : List Char) : Nat :=
  l.foldl (fun n c => 10 * n + (c.toNat - 48)) 0

/-- Nonempty all-digit test. -/
def isDigits (l : List Char) : Bool :=
  !l.isEmpty && l.all (fun c => c.isDigit)

/-- Model of Python's `float(s)` restricted to the plain decimal literals the
    scraped price texts consist of: surrounding whitespace, an optional sign,
    digits with at most one decimal point (at least one digit overall).
    The value is represented as an exact rational; exponent forms,
    underscores, `inf`/`nan` are outside the modelled domain and rejected. -/
def parseDec (s : String) : Option ℚ :=
  let l := (pyStrip s).toList
  let sl : Bool × List Char :=
    match l with
    | '-' :: r => (true, r)
    | '+' :: r => (false, r)
    | _ => (false, l)
  let neg := sl.1
  let l := sl.2
  let v : Option ℚ :=
    if l.contains '.' then
      let ip := l.takeWhile (fun c => c ≠ '.')
      let fp := (l.dropWhile (fun c => c ≠ '.')).drop 1
      if fp.contains '.' then none
      else if ip.all (fun c => c.isDigit) && fp.all (fun c => c.isDigit)
              && !(ip.isEmpty && fp.isEmpty) then
        some ((digitsVal ip : ℚ) + (digitsVal fp : ℚ) / (10 : ℚ) ^ fp.length)
      else none
    else if isDigits l then some ((digitsVal l : ℚ)) else none
  v.map (fun q => if neg then -q else q)

/-- Directory part of a URL path: everything up to and including the last
    slash (`"/"` when the path is empty). -/
def dirOf (path : List Char) : List Char :=
  if path = [] then ['/']
  else (path.reverse.dropWhile (fun c => c ≠ '/')).reverse

/-- Split a character list at the first occurrence of `://` into the part
    before it and the part after it; `none` when it does not occur. -/
def splitAtScheme : List Char → Option (List Char × List Char)
  | [] => none
  | c :: r =>
    if isPrefixL [':', '/', '/'] (c :: r) then some ([], r.drop 2)
    else
      match splitAtScheme r with
      | some (a, b) => some (c :: a, b)
      | none => none

/-- Model of `urllib.parse.urljoin` restricted to the cases the scraper
    exercises: an `http(s)://host/...` base joined with either the empty
    reference (yields the base), an absolute reference carrying `://`
    (yields the reference), a root-relative reference starting with `/`,
    or a relative path reference (joined onto the base's directory).
    Dot-segment normalisation, query strings, fragments and
    scheme-relative references are outside the modelled domain. -/
def urljoin (base url : String) : String :=
  if url = "" then base
  else if substrIn "://" url then url
  else
    match splitAtScheme base.toList with
    | some (sch, rest) =>
      let hostL := rest.takeWhile (fun c => c ≠ '/')
      let pathL := rest.drop hostL.length
      if isPrefixL ['/'] url.toList then
        String.mk (sch ++ (':' :: '/' :: '/' :: hostL) ++ url.toList)
      else
        String.mk (sch ++ (':' :: '/' :: '/' :: hostL) ++ dirOf pathL ++ url.toList)
    | none => url

/-! ## Data model: the pieces of parsed HTML the code reads -/

/-- The nested `<a>` inside an item's `<h3>`: its `title` and `href`
    attributes, each possibly absent. -/
structure ATag where
  title : Option String
  href : Option String
  deriving DecidableEq

/-- One `<article class="product_pod">` item container, holding exactly the
    nodes `extract_book_data` queries.  `h3a` is `some a` when the item has an
    `<h3>` containing an `<a>` (the code requires both together); `priceText`
    is the text of the first `<p class="price_color">`; `ratingClasses` the
    class list of the first `<p class="star-rating">` (already defaulted to
    `[]` by `get('class', [])` when the attribute is missing); the two
    availability fields are the texts of the first `<p class="instock">` and
    `<p class="outofstock">` respectively. -/
structure BookElement where
  h3a : Option ATag
  priceText : Option String
  ratingClasses : Option (List String)
  instockText : Option String
  outofstockText : Option String
  deriving DecidableEq

/-- A cell value of the book dictionary: Python `str`, `float`, `int`
    or `None`. -/
inductive Value where
  | str (s : String)
  | num (q : ℚ)
  | int (n : Nat)
  | null
  deriving DecidableEq

/-- A scraped book record: the Python `dict` built by `extract_book_data`,
    kept as an insertion-ordered association list so that the key set and
    ordering are part of the model. -/
abbrev BookDict := List (String × Value)

/-- One parsed listing page: the item containers in document order, and the
    `href` (defaulted to `""` by `get('href', '')`) of the `<a>` inside the
    first `<li class="next">` when both exist (`none` when either is
    absent — the two cases are indistinguishable to the code). -/
structure Page where
  productPods : List BookElement
  nextA : Option String
  deriving DecidableEq

/-! ## The extractor (`extract_rating`, `extract_book_data`) -/

/-- The `rating_map` dictionary of `extract_rating`, in insertion order. -/
def rating_map : List (String × Nat) :=
  [("One", 1), ("Two", 2), ("Three", 3), ("Four", 4), ("Five", 5)]

/-- Model of `BookScraper.extract_rating`: first word of `rating_map` (in insertion
    order) occurring as a substring of the class string, mapped to its
    numeric rating; `none` when no word occurs.  The `word in rating_class`
    test is Python's case-sensitive substring containment. -/
def extract_rating (rating_class : String) : Option Nat :=
  (rating_map.find? (fun wr => substrIn wr.1 rating_class)).map (fun wr => wr.2)

/-- The availability indicator node selection: the first
    `<p class="instock">`, otherwise the first `<p class="outofstock">`. -/
def availabilityTag (b : BookElement) : Option String :=
  match b.instockText with
  | some t => some t
  | none => b.outofstockText

/-- The in-stock test of line 195:
    `'In stock' in text or 'instock' in text.lower()`. -/
def inStockPat (s : String) : Bool :=
  substrIn "In stock" s || substrIn "instock" (pyLower s)

/-- The out-of-stock test of line 197:
    `'Out of stock' in text or 'outofstock' in text.lower()`. -/
def outOfStockPat (s : String) : Bool :=
  substrIn "Out of stock" s || substrIn "outofstock" (pyLower s)

/-- Model of `BookScraper.extract_book_data`.  Returns `none` (no record) exactly when
    the item lacks an `<h3>` with a nested `<a>`; otherwise builds the dict in
    the source's insertion order Title, Price, Rating, Availability, URL.
    The source re-queries `find('h3')`/`find('a')` for the URL field; that
    re-query cannot fail once the Title step has passed, so the source's
    `'URL': None` branch is unreachable and the URL is always
    `urljoin(self.base_url, href)` with `href` defaulted to `""`.
    The enclosing `try/except` of the source catches exceptions of the HTML
    library; none of the modelled operations can raise. -/
def extract_book_data (base_url : String) (b : BookElement) : Option BookDict :=
  match b.h3a with
  | none => none
  | some a =>
    let titleV := Value.str (pyStrip (a.title.getD ""))
    let priceV :=
      match b.priceText with
      | some t =>
        (match parseDec (stripPound (pyStrip t)) with
         | some q => Value.num q
         | none => Value.null)
      | none => Value.null
    let ratingV :=
      match b.ratingClasses with
      | some cls =>
        (match extract_rating (String.intercalate " " cls) with
         | some r => Value.int r
         | none => Value.null)
      | none => Value.null
    let availV :=
      match availabilityTag b with
      | some t0 =>
        let t := pyStrip t0
        if inStockPat t then Value.str "In stock"
        else if outOfStockPat t then Value.str "Out of stock"
        else Value.str t
      | none => Value.null
    let urlV := Value.str (urljoin base_url (a.href.getD ""))
    some [("Title", titleV), ("Price", priceV), ("Rating", ratingV),
          ("Availability", availV), ("URL", urlV)]

/-! ## The paginator (`scrape_page`, `get_next_page_url`, `scrape_all_pages`) -/

/-- The extraction loop of `scrape_page` over the page's item containers:
    records of successfully-titled items, in page order (`filterMap` appends
    exactly the `some` results, preserving order). -/
def pageBooks (base_url : String) (soup : Page) : List BookDict :=
  soup.productPods.filterMap (extract_book_data base_url)

/-- Model of `BookScraper.scrape_page` applied to the outcome of its `get_page` call:
    the empty list when the fetch failed, otherwise the page's records.
    (A successfully fetched but completely empty document is falsy in the
    source and behaves like a failed fetch; the oracle models it as
    `none`.) -/
def scrape_page (fetched : Option Page) (base_url : String) : List BookDict :=
  match fetched with
  | none => []
  | some soup => pageBooks base_url soup

/-- Model of `BookScraper.get_next_page_url`: the href of the `<a>` inside
    `<li class="next">` resolved against the current page's URL;
    `none` when the indicator or its link is absent. -/
def get_next_page_url (soup : Page) (current_url : String) : Option String :=
  soup.nextA.map (fun rel => urljoin current_url rel)

/-- The `while current_url:` loop of `BookScraper.scrape_all_pages`.
    `net k u` is the parsed result of the `k`-th HTTP request of the crawl
    when issued for URL `u` (`none` on any fetch failure); the attempt index
    is threaded because each loop iteration issues two requests for the
    current URL — one inside `scrape_page` and a second one via `get_page`
    for pagination.  `fuel` bounds the number of iterations (the source loop
    need not terminate, e.g. on a self-linking page); every claim about the
    crawl is proved for all sufficiently large fuel.  The empty string is
    falsy in Python, so it ends the loop like `None`; the inter-page
    `time.sleep` has no effect on the result and is not modelled. -/
def scrape_all_pagesAux (net : Nat → String → Option Page) (base_url : String) :
    Nat → Nat → Option String → List BookDict
  | 0, _, _ => []
  | fuel + 1, k, cur =>
    match cur with
    | none => []
    | some u =>
      if u = "" then []
      else
        let page_books := scrape_page (net k u) base_url
        match net (k + 1) u with
        | some soup =>
          page_books ++
            scrape_all_pagesAux net base_url fuel (k + 2) (get_next_page_url soup u)
        | none => page_books

/-- Model of `BookScraper.scrape_all_pages`: the loop started at the scraper's
    configured base URL with request counter 0. -/
def scrape_all_pages (net : Nat → String → Option Page) (base_url : String)
    (fuel : Nat) : List BookDict :=
  scrape_all_pagesAux net base_url fuel 0 (some base_url)

/-- A network whose responses are determined by the URL alone — every
    request to the same URL gets the same outcome. -/
def detNet (fetch : String → Option Page) : Nat → String → Option Page :=
  fun _ u => fetch u

/-- The relation `PChain fetch u steps w` says: starting from URL `u`, the crawl's page
    sequence under the deterministic network `fetch` successfully visits
    exactly the URL/page pairs in `steps` (each fetch succeeding, each page
    carrying a next link leading to the following URL) and arrives at `w`. -/
def PChain (fetch : String → Option Page) :
    String → List (String × Page) → String → Prop
  | u, [], w => u = w
  | u, (v, p) :: rest, w =>
    u = v ∧ v ≠ "" ∧ fetch v = some p ∧
      ∃ rel, p.nextA = some rel ∧ PChain fetch (urljoin v rel) rest w

/-! ## The serializer (`save_to_csv`) -/

/-- The fixed `fieldnames` column list of `save_to_csv`. -/
def fieldnames : List String := ["Title", "Price", "Rating", "Availability", "URL"]

/-- The `csv` module's quoting trigger (default `QUOTE_MINIMAL` dialect): a field is
    quoted when it contains the delimiter, the quote character or a line
    break. -/
def needsQuote (l : List Char) : Bool :=
  l.any (fun c => c = ',' || c = '"' || c = '\n' || c = '\r')

/-- Quote-doubling inside a quoted CSV field. -/
def escQuotes : List Char → List Char
  | [] => []
  | c :: r => if c = '"' then '"' :: '"' :: escQuotes r else c :: escQuotes r

/-- One rendered CSV cell for a field text. -/
def csvCellChars (s : String) : List Char :=
  if needsQuote s.toList then '"' :: (escQuotes s.toList ++ ['"']) else s.toList

/-- Comma-join of rendered cells into one CSV row. -/
def joinCommaL : List (List Char) → List Char
  | [] => []
  | [c] => c
  | c :: rest => c ++ ',' :: joinCommaL rest

/-- Smallest power-of-ten exponent clearing the denominator (the parsed
    prices are all decimal rationals, for which this exists). -/
def decExp (q : ℚ) : Nat :=
  ((List.range 30).find? (fun k => (q * (10 : ℚ) ^ k).den = 1)).getD 0

/-- Left-pad a digit string with zeros to width `k`. -/
def padZeros (s : String) (k : Nat) : String :=
  String.mk (List.replicate (k - s.length) '0') ++ s

/-- Model of Python's `str()` on a float parsed from plain decimal text:
    sign, integer digits, a decimal point and the fractional digits (at
    least one, so whole numbers render like `51.0`).  The shortest-repr
    subtleties of binary doubles are outside the modelled domain; no claim
    depends on the digits of a non-null numeric cell. -/
def ratRepr (q : ℚ) : String :=
  let a := if q < 0 then -q else q
  let k := decExp a
  let m := (a * (10 : ℚ) ^ k).num.toNat
  (if q < 0 then "-" else "") ++ toString (m / 10 ^ k) ++ "." ++
    padZeros (toString (m % 10 ^ k)) k

/-- The text `csv.DictWriter` writes for one cell value
    (`None` renders as the empty cell). -/
def renderValue : Value → String
  | Value.str s => s
  | Value.num q => ratRepr q
  | Value.int n => toString n
  | Value.null => ""

/-- One data row: the record's five columns in `fieldnames` order, each
    looked up in the dict (`restval`, the empty cell, for a missing key). -/
def csvRowChars (d : BookDict) : List Char :=
  joinCommaL (fieldnames.map (fun f => csvCellChars (renderValue ((d.lookup f).getD Value.null))))

/-- The header row `writeheader` emits: the field names through the same
    CSV renderer. -/
def headerChars : List Char :=
  joinCommaL (fieldnames.map (fun f => csvCellChars f))

/-- The `csv.DictWriter` raises `ValueError` on a row holding a key outside
    `fieldnames`; this checks a dict is free of such keys. -/
def dictFieldsOk (d : BookDict) : Bool :=
  d.all (fun kv => fieldnames.contains kv.1)

/-- The byte content of the written file: header then one row per record in
    input order, each terminated by the writer's `\r\n` (the file is opened
    with `newline=''`, so the terminator reaches the file unchanged). -/
def csvFileChars (books : List BookDict) : List Char :=
  ((headerChars :: books.map csvRowChars).map (fun r => r ++ ['\r', '\n'])).flatten

/-- Model of `BookScraper.save_to_csv`: fails (returning `False`, never raising) on an
    empty record list; then the destination open may fail (`openOk = false`,
    the `IOError` branch of the catch-all `except`); then `DictWriter`
    raises on any row with a key outside the columns, which the same
    `except` converts to `False`.  On failure the (possibly partially
    written) file content is not modelled — no claim refers to it. -/
def save_to_csv (books : List BookDict) (openOk : Bool) : Bool × String :=
  if books.isEmpty then (false, "")
  else if openOk = false then (false, "")
  else if books.all dictFieldsOk then (true, String.mk (csvFileChars books))
  else (false, "")

/-- Number of line-feed characters in the file — its physical line count,
    every written line being `\n`-terminated. -/
def lineCount (s : String) : Nat :=
  s.toList.count '\n'

/-- The spec's reading of the rating match, for comparison with the source's
    `extract_rating`.  Modelled from the spec: a case- and
    position-insensitive substring match of the five recognized words. -/
def spec_rating_ci (rating_class : String) : Option Nat :=
  (rating_map.find? (fun wr => substrIn (pyLower wr.1) (pyLower rating_class))).map
    (fun wr => wr.2)

/-! ## Helper lemmas -/

/-- The crawl loop stops as soon as the current URL becomes `None`. -/
theorem scrapeAux_none (net : Nat → String → Option Page) (base_url : String) :
    ∀ fuel k, scrape_all_pagesAux net base_url fuel k none = [] := by
  intro fuel k
  cases fuel <;> rfl

/-- Under a URL-determined network, a successful chain of pages followed by a
    failing fetch yields exactly the records of the chain's pages. -/
theorem scrapeAux_of_chain_fail (fetch : String → Option Page) (base_url : String) :
    ∀ (steps : List (String × Page)) (u w : String) (fuel k : Nat),
      PChain fetch u steps w → fetch w = none → steps.length < fuel →
      scrape_all_pagesAux (detNet fetch) base_url fuel k (some u) =
        (steps.map (fun sp => pageBooks base_url sp.2)).flatten := by
  intro steps
  induction steps with
  | nil =>
    intro u w fuel k hchain hfail hfuel
    have hu : u = w := hchain
    subst hu
    cases fuel with
    | zero => omega
    | succ f =>
      by_cases hw : u = "" <;>
        simp [scrape_all_pagesAux, detNet, scrape_page, hw, hfail]
  | cons vp rest ih =>
    intro u w fuel k hchain hfail hfuel
    obtain ⟨v, p⟩ := vp
    obtain ⟨hu, hv, hfv, rel, hrel, hch⟩ := hchain
    subst hu
    cases fuel with
    | zero => simp at hfuel
    | succ f =>
      have hrest : rest.length < f := by simpa using hfuel
      simp only [scrape_all_pagesAux, detNet, scrape_page, hfv, hv,
        get_next_page_url, hrel, Option.map_some', if_neg hv, List.map_cons,
        List.flatten_cons]
      rw [ih (urljoin u rel) w f (k + 2) hch hfail hrest]
      simp

/-- Under a URL-determined network, a successful chain of pages ending in a
    page with no next indicator yields exactly the chain's records followed
    by the last page's records. -/
theorem scrapeAux_of_chain_last (fetch : String → Option Page) (base_url : String) :
    ∀ (steps : List (String × Page)) (u w : String) (plast : Page) (fuel k : Nat),
      PChain fetch u steps w → w ≠ "" → fetch w = some plast →
      plast.nextA = none → steps.length < fuel →
      scrape_all_pagesAux (detNet fetch) base_url fuel k (some u) =
        (steps.map (fun sp => pageBooks base_url sp.2)).flatten ++
          pageBooks base_url plast := by
  intro steps
  induction steps with
  | nil =>
    intro u w plast fuel k hchain hw hfetch hnonext hfuel
    have hu : u = w := hchain
    subst hu
    cases fuel with
    | zero => omega
    | succ f =>
      simp [scrape_all_pagesAux, detNet, scrape_page, hw, hfetch,
        get_next_page_url, hnonext, scrapeAux_none]
  | cons vp rest ih =>
    intro u w plast fuel k hchain hw hfetch hnonext hfuel
    obtain ⟨v, p⟩ := vp
    obtain ⟨hu, hv, hfv, rel, hrel, hch⟩ := hchain
    subst hu
    cases fuel with
    | zero => simp at hfuel
    | succ f =>
      have hrest : rest.length < f := by simpa using hfuel
      simp only [scrape_all_pagesAux, detNet, scrape_page, hfv, hv,
        get_next_page_url, hrel, Option.map_some', if_neg hv, List.map_cons,
        List.flatten_cons]
      rw [ih (urljoin u rel) w plast f (k + 2) hch hw hfetch hnonext hrest]
      simp

/-! ## Claim theorems -/

/-- Claim C10: every record the extractor emits carries exactly the five keys
    Title, Price, Rating, Availability, URL in that order — none missing,
    none extra — so every emitted record passes the serializer's fixed
    column check. -/
theorem record_keys_exactly_fieldnames (base : String) (b : BookElement)
    (d : BookDict) (h : extract_book_data base b = some d) :
    d.map Prod.fst = fieldnames ∧ dictFieldsOk d = true := by
  obtain ⟨h3a, bp, br, bi, bo⟩ := b
  cases h3a with
  | none => simp [extract_book_data] at h
  | some a =>
    simp only [extract_book_data] at h
    injection h with h
    subst h
    exact ⟨rfl, rfl⟩

theorem record_keys_exactly_fieldnames_witness :
    ([("Title", Value.str "X"), ("Price", Value.null), ("Rating", Value.null),
      ("Availability", Value.null), ("URL", Value.str "http://b/x.html")] :
        BookDict).map Prod.fst = fieldnames :=
  (record_keys_exactly_fieldnames "http://b/"
    { h3a := some { title := some "X", href := some "x.html" },
      priceText := none, ratingClasses := none,
      instockText := none, outofstockText := none } _ rfl).1

/-- Claim C1 (amended): a record is emitted exactly when the item has an
    `<h3>` with a nested link; its Title is then the link's `title`
    attribute, defaulted to the empty string and stripped — so an emitted
    record's Title may be empty. -/
theorem extract_emits_iff_h3_link (base : String) (b : BookElement) :
    (extract_book_data base b = none ↔ b.h3a = none) ∧
    (∀ a, b.h3a = some a →
      ∃ d, extract_book_data base b = some d ∧
        d.lookup "Title" = some (Value.str (pyStrip (a.title.getD "")))) := by
  obtain ⟨h3a, bp, br, bi, bo⟩ := b
  cases h3a with
  | none =>
    refine ⟨by simp [extract_book_data], ?_⟩
    intro a ha
    cases ha
  | some a =>
    refine ⟨by simp [extract_book_data], ?_⟩
    intro a' ha'
    cases ha'
    exact ⟨_, rfl, rfl⟩

theorem extract_emits_iff_h3_link_witness :
    ∃ d, extract_book_data "http://b/"
        { h3a := some { title := some "  The Grand Design  ", href := some "g.html" },
          priceText := none, ratingClasses := none,
          instockText := none, outofstockText := none } = some d ∧
      d.lookup "Title" = some (Value.str "The Grand Design") := by
  obtain ⟨d, hd, ht⟩ :=
    (extract_emits_iff_h3_link "http://b/"
      { h3a := some { title := some "  The Grand Design  ", href := some "g.html" },
        priceText := none, ratingClasses := none,
        instockText := none, outofstockText := none }).2 _ rfl
  exact ⟨d, hd, by rw [ht]; rfl⟩

/-- Claim C1 counterexample: an item whose title link exists but carries no
    `title` attribute produces a record whose Title is the empty string, so
    a record without a non-empty Title is materialized. -/
theorem empty_title_record_exists :
    ∃ d, extract_book_data "http://b/"
        { h3a := some { title := none, href := some "x.html" },
          priceText := none, ratingClasses := none,
          instockText := none, outofstockText := none } = some d ∧
      d.lookup "Title" = some (Value.str "") := by
  refine ⟨_, rfl, ?_⟩
  rfl

/-- Claim C2 (amended): an emitted record's URL field is the item link's
    href resolved against the scraper's configured base URL — the crawl's
    start URL — not against the URL of the page the item appears on; the
    link is always present in an emitted record, so URL is never null. -/
theorem record_url_uses_scraper_base (base : String) (b : BookElement)
    (d : BookDict) (h : extract_book_data base b = some d) :
    ∃ a, b.h3a = some a ∧
      d.lookup "URL" = some (Value.str (urljoin base (a.href.getD ""))) := by
  obtain ⟨h3a, bp, br, bi, bo⟩ := b
  cases h3a with
  | none => simp [extract_book_data] at h
  | some a =>
    simp only [extract_book_data] at h
    injection h with h
    subst h
    exact ⟨a, rfl, rfl⟩

theorem record_url_uses_scraper_base_witness :
    ∃ a, ({ h3a := some { title := some "T", href := some "catalogue/t_1/index.html" },
            priceText := none, ratingClasses := none,
            instockText := none, outofstockText := none } : BookElement).h3a = some a ∧
      ([("Title", Value.str "T"), ("Price", Value.null), ("Rating", Value.null),
        ("Availability", Value.null),
        ("URL", Value.str "http://books.toscrape.com/catalogue/t_1/index.html")] :
          BookDict).lookup "URL" =
        some (Value.str (urljoin "http://books.toscrape.com/" (a.href.getD ""))) :=
  record_url_uses_scraper_base "http://books.toscrape.com/"
    { h3a := some { title := some "T", href := some "catalogue/t_1/index.html" },
      priceText := none, ratingClasses := none,
      instockText := none, outofstockText := none } _ rfl

/-- The item used by the C2 counterexample crawl: a titled book whose link
    is relative to the second listing page. -/
def urlCexBook : BookElement :=
  { h3a := some { title := some "T", href := some "foo/index.html" }
    priceText := none
    ratingClasses := none
    instockText := none
    outofstockText := none }

/-- The two-page site of the C2 counterexample: the start page links to
    `catalogue/page-2.html`, which carries one book. -/
def urlCexFetch : String → Option Page := fun u =>
  if u = "http://b.com/" then
    some { productPods := [], nextA := some "catalogue/page-2.html" }
  else if u = "http://b.com/catalogue/page-2.html" then
    some { productPods := [urlCexBook], nextA := none }
  else none

/-- Claim C2 counterexample: the record scraped from the page at
    `http://b.com/catalogue/page-2.html` gets URL
    `http://b.com/foo/index.html` (the href joined to the scraper's base
    URL), while resolving the same href against the URL of the page the item
    appears on gives `http://b.com/catalogue/foo/index.html` — a different
    URL. -/
theorem record_url_not_page_relative :
    scrape_all_pages (detNet urlCexFetch) "http://b.com/" 3 =
      [[("Title", Value.str "T"), ("Price", Value.null), ("Rating", Value.null),
        ("Availability", Value.null),
        ("URL", Value.str "http://b.com/foo/index.html")]] ∧
    urljoin "http://b.com/catalogue/page-2.html" "foo/index.html" =
      "http://b.com/catalogue/foo/index.html" ∧
    ("http://b.com/foo/index.html" : String) ≠
      "http://b.com/catalogue/foo/index.html" := by
  refine ⟨by decide, by decide, by decide⟩

/-- Claim C3 (amended): provided every URL's fetch outcome is stable for the
    duration of the crawl — the loop body in fact issues two requests per
    page, one inside `scrape_page` and a pagination re-fetch, so a transient
    failure of only the first request continues the crawl and merely drops
    that page's records — a crawl whose chain of successfully visited pages
    reaches a URL whose fetch fails halts there, and its result is exactly
    the records of the pages before the failure; in particular a failing
    start URL yields the empty sequence (the empty chain case). -/
theorem crawl_halts_on_persistent_fetch_failure
    (fetch : String → Option Page) (base ufail : String)
    (steps : List (String × Page)) (fuel : Nat)
    (hchain : PChain fetch base steps ufail) (hfail : fetch ufail = none)
    (hfuel : steps.length < fuel) :
    scrape_all_pages (detNet fetch) base fuel =
      (steps.map (fun sp => pageBooks base sp.2)).flatten :=
  scrapeAux_of_chain_fail fetch base steps base ufail fuel 0 hchain hfail hfuel

/-- A book of the C3 witness site. -/
def c3wBook : BookElement :=
  { h3a := some { title := some "B1", href := some "b1.html" }
    priceText := none
    ratingClasses := none
    instockText := none
    outofstockText := none }

/-- The only reachable page of the C3 witness site; its next link points at
    a URL whose fetch fails. -/
def c3wPage : Page := { productPods := [c3wBook], nextA := some "page-2.html" }

/-- The C3 witness network: one good page, everything else unfetchable. -/
def c3wFetch : String → Option Page := fun u =>
  if u = "http://v/" then some c3wPage else none

theorem crawl_halts_on_persistent_fetch_failure_witness :
    scrape_all_pages (detNet c3wFetch) "http://v/" 3 =
      ([("http://v/", c3wPage)].map (fun sp => pageBooks "http://v/" sp.2)).flatten :=
  crawl_halts_on_persistent_fetch_failure c3wFetch "http://v/" "http://v/page-2.html"
    [("http://v/", c3wPage)] 3
    ⟨rfl, by decide, rfl, "page-2.html", rfl, rfl⟩ (by decide) (by decide)

/-- The book served on the second page of the C3 counterexample site. -/
def c3cexBook : BookElement :=
  { h3a := some { title := some "B2", href := some "x.html" }
    priceText := none
    ratingClasses := none
    instockText := none
    outofstockText := none }

/-- First page of the C3 counterexample site (no items, next link). -/
def c3cexP1 : Page := { productPods := [], nextA := some "p2.html" }

/-- Second page of the C3 counterexample site (one item, no next link). -/
def c3cexP2 : Page := { productPods := [c3cexBook], nextA := none }

/-- The C3 counterexample network: the crawl's request number 0 — the fetch
    of the start URL issued by `scrape_page` — fails (say, a transient
    timeout), while the immediately following pagination re-fetch of the
    same URL succeeds; the second page always fetches fine. -/
def c3cexNet : Nat → String → Option Page := fun k u =>
  if u = "http://s/" then (if k = 0 then none else some c3cexP1)
  else if u = "http://s/p2.html" then some c3cexP2
  else none

/-- Claim C3 counterexample: the fetch of the start URL fails, yet the crawl
    does not halt there and does not return the empty sequence — the
    pagination re-fetch of the same URL succeeds, the crawl moves on and
    returns the second page's record (having silently dropped the first
    page's records). -/
theorem crawl_continues_after_transient_start_failure :
    c3cexNet 0 "http://s/" = none ∧
    scrape_all_pages c3cexNet "http://s/" 5 =
      [[("Title", Value.str "B2"), ("Price", Value.null), ("Rating", Value.null),
        ("Availability", Value.null), ("URL", Value.str "http://s/x.html")]] ∧
    scrape_all_pages c3cexNet "http://s/" 5 ≠ [] := by
  refine ⟨rfl, by decide, by decide⟩

/-- Claim C7: a crawl (with URL-determined fetch outcomes) that reaches a
    page whose markup has no next indicator terminates after processing that
    page — the result no longer depends on the fuel bound — and returns
    exactly the concatenation, in visit order, of the records of the pages
    visited. -/
theorem crawl_stops_without_next_indicator
    (fetch : String → Option Page) (base ulast : String) (plast : Page)
    (steps : List (String × Page)) (fuel : Nat)
    (hchain : PChain fetch base steps ulast) (hne : ulast ≠ "")
    (hfetch : fetch ulast = some plast) (hnonext : plast.nextA = none)
    (hfuel : steps.length < fuel) :
    scrape_all_pages (detNet fetch) base fuel =
      (steps.map (fun sp => pageBooks base sp.2)).flatten ++
        pageBooks base plast :=
  scrapeAux_of_chain_last fetch base steps base ulast plast fuel 0 hchain hne
    hfetch hnonext hfuel

/-- First book of the C7 witness site. -/
def c7wBook1 : BookElement :=
  { h3a := some { title := some "A", href := some "a.html" }
    priceText := none
    ratingClasses := none
    instockText := none
    outofstockText := none }

/-- Second book of the C7 witness site. -/
def c7wBook2 : BookElement :=
  { h3a := some { title := some "B", href := some "b.html" }
    priceText := none
    ratingClasses := none
    instockText := none
    outofstockText := none }

/-- First page of the C7 witness site: one book and a next link. -/
def c7wPage1 : Page := { productPods := [c7wBook1], nextA := some "page-2.html" }

/-- Last page of the C7 witness site: one book, no next indicator. -/
def c7wPage2 : Page := { productPods := [c7wBook2], nextA := none }

/-- The two-page C7 witness network. -/
def c7wFetch : String → Option Page := fun u =>
  if u = "http://w/" then some c7wPage1
  else if u = "http://w/page-2.html" then some c7wPage2
  else none

theorem crawl_stops_without_next_indicator_witness :
    scrape_all_pages (detNet c7wFetch) "http://w/" 3 =
      ([("http://w/", c7wPage1)].map (fun sp => pageBooks "http://w/" sp.2)).flatten ++
        pageBooks "http://w/" c7wPage2 :=
  crawl_stops_without_next_indicator c7wFetch "http://w/" "http://w/page-2.html"
    c7wPage2 [("http://w/", c7wPage1)] 3
    ⟨rfl, by decide, rfl, "page-2.html", rfl, rfl⟩ (by decide) rfl rfl
    (by decide)

/-- Claim C4 (amended): the rating is determined by a case-sensitive,
    position-insensitive substring match of the five recognized words
    One..Five mapped to 1..5 (checked in dictionary order, first match
    winning), and it is null exactly when none of the five words occurs
    case-sensitively; a class string carrying "Three" and no earlier word
    yields rating 3. -/
theorem extract_rating_case_sensitive_substring (s : String) :
    (extract_rating s = none ↔ ∀ wr ∈ rating_map, substrIn wr.1 s = false) ∧
    (∀ r, extract_rating s = some r →
      ∃ wr ∈ rating_map, wr.2 = r ∧ substrIn wr.1 s = true) ∧
    (substrIn "Three" s = true → substrIn "One" s = false →
      substrIn "Two" s = false → extract_rating s = some 3) := by
  refine ⟨?_, ?_, ?_⟩
  · unfold extract_rating
    rw [Option.map_eq_none', List.find?_eq_none]
    simp [Bool.not_eq_true]
  · intro r hr
    unfold extract_rating at hr
    rw [Option.map_eq_some'] at hr
    obtain ⟨wr, hfind, hwr⟩ := hr
    exact ⟨wr, List.mem_of_find?_eq_some hfind, hwr,
      by simpa using List.find?_some hfind⟩
  · intro h3 h1 h2
    unfold extract_rating rating_map
    simp [List.find?, h1, h2, h3]

theorem extract_rating_case_sensitive_substring_witness :
    extract_rating "star-rating Three" = some 3 :=
  (extract_rating_case_sensitive_substring "star-rating Three").2.2 (by decide)
    (by decide) (by decide)

/-- Claim C4 counterexample: a rating class carrying the lowercase word
    `three` matches case-insensitively (the spec's reading yields rating 3),
    but the source's `extract_rating` performs a case-sensitive `in` test and
    returns null. -/
theorem extract_rating_misses_lowercase_word :
    spec_rating_ci "star-rating three" = some 3 ∧
    extract_rating "star-rating three" = none :=
  ⟨by decide, by decide⟩

/-- Evaluation of the scenario price text through the modelled
    `float(text.replace('£', ''))` pipeline. -/
theorem parseDec_scenario : parseDec "51.77" = some ((5177 : ℚ) / 100) := by
  have h : parseDec "51.77" =
      some ((digitsVal ['5', '1'] : ℚ) +
        (digitsVal ['7', '7'] : ℚ) / (10 : ℚ) ^ (2 : ℕ)) := rfl
  have h51 : digitsVal ['5', '1'] = 51 := by decide
  have h77 : digitsVal ['7', '7'] = 77 := by decide
  rw [h, h51, h77, Option.some.injEq]
  push_cast
  norm_num

/-- Claim C5: for an item with a title link and a price node, a record is
    emitted whose Price field is the node's stripped text with the `£`
    characters removed, parsed as a decimal number — null exactly when that
    parse fails — and every other field is computed independently of the
    price text (so a failed parse leaves the rest of the record intact). -/
theorem price_field_extraction (base : String) (b : BookElement) (a : ATag)
    (t : String) (hb : b.h3a = some a) (ht : b.priceText = some t) :
    (∃ d, extract_book_data base b = some d ∧
      d.lookup "Price" = some
        (match parseDec (stripPound (pyStrip t)) with
         | some q => Value.num q
         | none => Value.null)) ∧
    (∀ t₁ t₂ f, f ∈ (["Title", "Rating", "Availability", "URL"] : List String) →
      (extract_book_data base { b with priceText := t₁ }).map
          (fun d => d.lookup f) =
        (extract_book_data base { b with priceText := t₂ }).map
          (fun d => d.lookup f)) := by
  obtain ⟨h3a, bp, br, bi, bo⟩ := b
  subst hb
  subst ht
  constructor
  · exact ⟨_, rfl, rfl⟩
  · intro t₁ t₂ f hf
    simp only [List.mem_cons, List.mem_singleton, List.not_mem_nil, or_false] at hf
    rcases hf with rfl | rfl | rfl | rfl <;> rfl

theorem price_field_extraction_witness :
    ∃ d, extract_book_data "http://b/"
        { h3a := some { title := some "P", href := some "p.html" },
          priceText := some " £51.77 ", ratingClasses := none,
          instockText := none, outofstockText := none } = some d ∧
      d.lookup "Price" = some (Value.num ((5177 : ℚ) / 100)) := by
  obtain ⟨⟨d, hd, hp⟩, -⟩ :=
    price_field_extraction "http://b/"
      { h3a := some { title := some "P", href := some "p.html" },
        priceText := some " £51.77 ", ratingClasses := none,
        instockText := none, outofstockText := none }
      { title := some "P", href := some "p.html" } " £51.77 " rfl rfl
  refine ⟨d, hd, ?_⟩
  rw [hp]
  have e : stripPound (pyStrip " £51.77 ") = "51.77" := rfl
  rw [e, parseDec_scenario]

/-- Claim C6: the Availability field is null exactly when neither
    availability indicator exists; otherwise, with `t` the chosen
    indicator's stripped text, it is exactly `"In stock"` when `t` matches
    the in-stock pattern, exactly `"Out of stock"` when `t` matches only the
    out-of-stock pattern, and the raw stripped text `t` itself when it
    matches neither — never any other value. -/
theorem availability_normalization (base : String) (b : BookElement) (a : ATag)
    (hb : b.h3a = some a) :
    ∃ d, extract_book_data base b = some d ∧
      ((availabilityTag b = none ∧ d.lookup "Availability" = some Value.null) ∨
       (∃ t0, availabilityTag b = some t0 ∧
         ((inStockPat (pyStrip t0) = true ∧
            d.lookup "Availability" = some (Value.str "In stock")) ∨
          (inStockPat (pyStrip t0) = false ∧ outOfStockPat (pyStrip t0) = true ∧
            d.lookup "Availability" = some (Value.str "Out of stock")) ∨
          (inStockPat (pyStrip t0) = false ∧ outOfStockPat (pyStrip t0) = false ∧
            d.lookup "Availability" = some (Value.str (pyStrip t0)))))) := by
  obtain ⟨h3a, bp, br, bi, bo⟩ := b
  subst hb
  refine ⟨_, rfl, ?_⟩
  cases bi with
  | some t =>
    refine Or.inr ⟨t, rfl, ?_⟩
    cases hin : inStockPat (pyStrip t) with
    | true => exact Or.inl ⟨rfl, by simp [List.lookup, availabilityTag, hin]⟩
    | false =>
      cases hout : outOfStockPat (pyStrip t) with
      | true =>
        exact Or.inr (Or.inl ⟨rfl, rfl,
          by simp [List.lookup, availabilityTag, hin, hout]⟩)
      | false =>
        exact Or.inr (Or.inr ⟨rfl, rfl,
          by simp [List.lookup, availabilityTag, hin, hout]⟩)
  | none =>
    cases bo with
    | some t =>
      refine Or.inr ⟨t, rfl, ?_⟩
      cases hin : inStockPat (pyStrip t) with
      | true => exact Or.inl ⟨rfl, by simp [List.lookup, availabilityTag, hin]⟩
      | false =>
        cases hout : outOfStockPat (pyStrip t) with
        | true =>
          exact Or.inr (Or.inl ⟨rfl, rfl,
            by simp [List.lookup, availabilityTag, hin, hout]⟩)
        | false =>
          exact Or.inr (Or.inr ⟨rfl, rfl,
            by simp [List.lookup, availabilityTag, hin, hout]⟩)
    | none => exact Or.inl ⟨rfl, rfl⟩

/-- The item of the C6 witness: an in-stock indicator with decorated text. -/
def c6wBook : BookElement :=
  { h3a := some { title := some "S", href := some "s.html" }
    priceText := none
    ratingClasses := none
    instockText := some "\n  In stock (19 available)\n  "
    outofstockText := none }

theorem availability_normalization_witness :
    ∃ d, extract_book_data "http://b/" c6wBook = some d ∧
      ((availabilityTag c6wBook = none ∧
         d.lookup "Availability" = some Value.null) ∨
       (∃ t0, availabilityTag c6wBook = some t0 ∧
         ((inStockPat (pyStrip t0) = true ∧
            d.lookup "Availability" = some (Value.str "In stock")) ∨
          (inStockPat (pyStrip t0) = false ∧ outOfStockPat (pyStrip t0) = true ∧
            d.lookup "Availability" = some (Value.str "Out of stock")) ∨
          (inStockPat (pyStrip t0) = false ∧ outOfStockPat (pyStrip t0) = false ∧
            d.lookup "Availability" = some (Value.str (pyStrip t0)))))) :=
  availability_normalization "http://b/" c6wBook
    { title := some "S", href := some "s.html" } rfl

/-- Claim C8: for record sequences whose dicts carry no key outside the
    fixed columns — every record the extractor produces, by the key-set
    invariant — the serializer returns failure exactly when the sequence is
    empty or the destination cannot be opened; every fault is reported as
    the boolean `false` (the model is a total function, mirroring the
    catch-all `except` that never lets an exception escape). -/
theorem save_failure_iff_empty_or_unopenable (books : List BookDict)
    (openOk : Bool) (hkeys : books.all dictFieldsOk = true) :
    (save_to_csv books openOk).1 = false ↔ (books = [] ∨ openOk = false) := by
  unfold save_to_csv
  rcases books with _ | ⟨d, rest⟩
  · simp
  · cases openOk
    · simp
    · simp [hkeys]

theorem save_failure_iff_empty_or_unopenable_witness :
    (save_to_csv [] true).1 = false :=
  (save_failure_iff_empty_or_unopenable [] true (by decide)).mpr (Or.inl rfl)

/-- Terminating each line-break-free row with `\x0d\n` and concatenating
    yields one line-feed per row. -/
theorem rows_flatten_count (rows : List (List Char))
    (h : ∀ r ∈ rows, r.count '\n' = 0) :
    ((rows.map (fun r => r ++ ['\x0d', '\n'])).flatten).count '\n' =
      rows.length := by
  induction rows with
  | nil => rfl
  | cons r rest ih =>
    have hterm : (['\x0d', '\n'] : List Char).count '\n' = 1 := by decide
    simp only [List.map_cons, List.flatten_cons, List.count_append,
      List.length_cons]
    rw [h r (by simp), ih (fun r' hr' => h r' (by simp [hr'])), hterm]
    omega

/-- Claim C9 (amended): a successful write produces the file consisting of
    the fixed five-column header line followed by one CSV row per record in
    input order, each `\x0d\n`-terminated, with null fields rendered as
    empty cells; provided no record's rendered row contains an embedded line
    break, the file has exactly N+1 physical lines.  (A field containing a
    line break is quoted and remains one CSV row, but its line breaks add
    physical lines, so the general line count is N+1 plus the embedded
    breaks.) -/
theorem csv_file_line_structure (books : List BookDict) (openOk : Bool)
    (hsucc : (save_to_csv books openOk).1 = true)
    (hnl : ∀ d ∈ books, (csvRowChars d).count '\n' = 0) :
    (save_to_csv books openOk).2 = String.mk (csvFileChars books) ∧
    lineCount (save_to_csv books openOk).2 = books.length + 1 ∧
    String.mk headerChars = "Title,Price,Rating,Availability,URL" ∧
    renderValue Value.null = "" := by
  cases openOk with
  | false =>
    rw [save_to_csv] at hsucc
    rcases books with _ | ⟨d, rest⟩ <;> simp at hsucc
  | true =>
    rcases hempty : books.isEmpty with _ | _
    · rcases hall : books.all dictFieldsOk with _ | _
      · rw [save_to_csv, hempty, hall] at hsucc
        simp at hsucc
      · have hsave : save_to_csv books true =
            (true, String.mk (csvFileChars books)) := by
          rw [save_to_csv, hempty, hall]
          simp
        refine ⟨by rw [hsave], ?_, by decide, rfl⟩
        rw [hsave]
        show (csvFileChars books).count '\n' = books.length + 1
        have hrows : ∀ r ∈ headerChars :: books.map csvRowChars,
            r.count '\n' = 0 := by
          intro r hr
          rcases List.mem_cons.mp hr with rfl | hr'
          · decide
          · obtain ⟨d, hd, rfl⟩ := List.mem_map.mp hr'
            exact hnl d hd
        have hcount :=
          rows_flatten_count (headerChars :: books.map csvRowChars) hrows
        unfold csvFileChars
        rw [hcount]
        simp
    · rw [save_to_csv, hempty] at hsucc
      simp at hsucc

/-- The record sequence of the C9 witness: two ordinary records. -/
def c9wBooks : List BookDict :=
  [[("Title", Value.str "Book A"), ("Price", Value.null),
    ("Rating", Value.int 3), ("Availability", Value.str "In stock"),
    ("URL", Value.str "http://b/a.html")],
   [("Title", Value.str "Book B"), ("Price", Value.null),
    ("Rating", Value.null), ("Availability", Value.null),
    ("URL", Value.null)]]

theorem csv_file_line_structure_witness :
    (save_to_csv c9wBooks true).2 = String.mk (csvFileChars c9wBooks) ∧
    lineCount (save_to_csv c9wBooks true).2 = c9wBooks.length + 1 ∧
    String.mk headerChars = "Title,Price,Rating,Availability,URL" ∧
    renderValue Value.null = "" :=
  csv_file_line_structure c9wBooks true (by decide) (by decide)

/-- The record sequence of the C9 counterexample: one record whose Title
    carries an embedded line break (a `title` attribute may contain one;
    `strip()` removes only edge whitespace). -/
def c9cexBooks : List BookDict :=
  [[("Title", Value.str "a\nb"), ("Price", Value.null), ("Rating", Value.null),
    ("Availability", Value.null), ("URL", Value.null)]]

/-- Claim C9 counterexample: one record (N = 1) written successfully, but
    the title's embedded line break is quoted into the single CSV row and
    the file has 3 physical lines, not N+1 = 2. -/
theorem csv_extra_line_on_embedded_newline :
    (save_to_csv c9cexBooks true).1 = true ∧
    lineCount (save_to_csv c9cexBooks true).2 = 3 ∧
    c9cexBooks.length + 1 = 2 ∧
    lineCount (save_to_csv c9cexBooks true).2 ≠ c9cexBooks.length + 1 :=
  ⟨by decide, by decide, rfl, by decide⟩

end BookScraper
